import Mathlib

/-!
Shallow embedding of the `casbin` echo middleware adapter
(`casbin/casbin.go`): configuration, subject extraction from basic-auth or
JWT bearer tokens, permission checking against an injected enforcer, and the
middleware wrapper mapping the decision to an HTTP outcome.

Conventions of the embedding:
* Go panics are modelled by `Option`: a result of `none` means the Go code
  panics (e.g. an out-of-bounds slice index or a nil-pointer dereference).
* Go `error` values are modelled by `Option String` (`none` = nil error).
* The external collaborators are modelled at their contract boundary: the
  casbin enforcer is an abstract function `String → String → String →
  Bool × Option String`; the result of net/http `Request.BasicAuth()` is
  carried as fields of the request; `encoding/json`'s unmarshalling of the
  claims struct is an abstract function `List Nat → JwtClaims` (it is total
  in the Go code because the unmarshal error is discarded and the zero value
  struct is used); `encoding/base64`'s `RawStdEncoding.DecodeString` is
  implemented concretely below.
-/

namespace EchoCasbin

/-- Value of one character of the standard base64 alphabet
(`A-Z a-z 0-9 + /`, no padding accepted by `RawStdEncoding`). -/
def b64DigitVal (c : Char) : Option Nat :=
  if 65 ≤ c.toNat ∧ c.toNat ≤ 90 then some (c.toNat - 65)
  else if 97 ≤ c.toNat ∧ c.toNat ≤ 122 then some (c.toNat - 97 + 26)
  else if 48 ≤ c.toNat ∧ c.toNat ≤ 57 then some (c.toNat - 48 + 52)
  else if c.toNat = 43 then some 62
  else if c.toNat = 47 then some 63
  else none

/-- Regroup six-bit values into bytes, as Go's unpadded base64 decoding does:
full quantums of four characters give three bytes, a final quantum of two or
three characters gives one or two bytes, and a final quantum of one
character is a corrupt-input error. -/
def b64Bytes : List Nat → Option (List Nat)
  | [] => some []
  | [_] => none
  | [v0, v1] => some [v0 * 4 + v1 / 16]
  | [v0, v1, v2] => some [v0 * 4 + v1 / 16, v1 % 16 * 16 + v2 / 4]
  | v0 :: v1 :: v2 :: v3 :: rest =>
    match b64Bytes rest with
    | none => none
    | some tail =>
      some ((v0 * 4 + v1 / 16) :: (v1 % 16 * 16 + v2 / 4) :: (v2 % 4 * 64 + v3) :: tail)

/-- Model of Go `base64.RawStdEncoding.DecodeString`: every character must be
in the standard alphabet (no padding characters allowed) and the length must
not be ≡ 1 (mod 4); `none` models the non-nil decode error. -/
def base64RawStdDecode (s : String) : Option (List Nat) :=
  match s.data.mapM b64DigitVal with
  | none => none
  | some vs => b64Bytes vs

/-- Model of Go `strings.Split` with a one-character separator, on the list
of characters: the substrings between consecutive separators. The empty
string yields `[""]` and a string with no separator yields a one-element
list, as in Go. -/
def stringsSplitChars (sep : Char) : List Char → List String
  | [] => [""]
  | c :: cs =>
    match stringsSplitChars sep cs with
    | [] => [""]
    | t :: ts =>
      if c = sep then "" :: t :: ts else String.mk (c :: t.data) :: ts

/-- Model of Go `strings.Split(s, sep)` for a one-character separator. -/
def stringsSplit (s : String) (sep : Char) : List String :=
  stringsSplitChars sep s.data

/-- The `jwtClaims` struct of `casbin.go`: the JWT registered claims, all
decoded as strings. -/
structure JwtClaims where
  iss : String
  sub : String
  aud : String
  exp : String
  nbf : String
  iat : String
  jti : String
deriving DecidableEq

/-- The Go zero value of `jwtClaims` (what `&jwtClaims{}` starts from, and
what remains when `json.Unmarshal` fails, since its error is discarded). -/
def JwtClaims.zero : JwtClaims := ⟨"", "", "", "", "", "", ""⟩

/-- The parts of an incoming HTTP request that `casbin.go` reads:
`Request().Method`, `Request().URL.Path`, the `Authorization` header, and
the result of the stdlib call `Request().BasicAuth()` (username, password,
ok), which parses the basic-auth credentials from the request's headers. -/
structure Request where
  method : String
  urlPath : String
  authorization : String
  basicAuthUsername : String
  basicAuthPassword : String
  basicAuthOk : Bool
deriving DecidableEq

/-- Contract boundary of `casbin.Enforcer.Enforce`: subject, object, action
in, a decision and an error out. -/
abbrev Enforcer := String → String → String → Bool × Option String

/-- `AuthenticationType` is a Go `int`; `BasicAuth` is the first (default,
zero-valued) constant of the `iota` block. -/
def BasicAuth : Nat := 0

/-- `JwtAuth`, the second constant of the `iota` block. -/
def JwtAuth : Nat := 1

/-- The middleware `Config`: a skipper predicate (`none` models the nil Go
function), the injected enforcer (`none` models a nil pointer), and the
authentication type. -/
structure Config where
  skipper : Option (Request → Bool)
  enforcer : Option Enforcer
  authType : Nat

/-- `middleware.DefaultSkipper`: skips nothing. -/
def DefaultSkipper : Request → Bool := fun _ => false

/-- `DefaultConfig`: only the skipper is set; enforcer and auth type keep
their Go zero values (nil and `BasicAuth`). -/
def DefaultConfig : Config :=
  { skipper := some DefaultSkipper, enforcer := none, authType := BasicAuth }

/-- `getUserNameBasicAuth`: the username component of
`c.Request().BasicAuth()`; password and ok are discarded. -/
def getUserNameBasicAuth (r : Request) : String :=
  r.basicAuthUsername

/-- `getUserNameJwtAuth`, parametrised by the model of `json.Unmarshal` into
`jwtClaims`. The `Authorization` header is split on `"."`; the Go code then
indexes `splitToken[1]` unconditionally, which panics (modelled by `none`)
when the split has fewer than two segments. A base64 decode error is logged
and turned into the empty username; otherwise the `sub` claim of the
unmarshalled body is returned. -/
def getUserNameJwtAuth (ju : List Nat → JwtClaims) (r : Request) : Option String :=
  let token := r.authorization
  let splitToken := stringsSplit token '.'
  match splitToken[1]? with
  | none => none
  | some tokenBody =>
    match base64RawStdDecode tokenBody with
    | none => some ""
    | some body => some (ju body).sub

/-- `Config.GetUserName`: dispatch on the configured auth type; any value
outside the two constants falls through to the empty username. -/
def GetUserName (ju : List Nat → JwtClaims) (a : Config) (r : Request) :
    Option String :=
  if a.authType = BasicAuth then some (getUserNameBasicAuth r)
  else if a.authType = JwtAuth then getUserNameJwtAuth ju r
  else some ""

/-- `Config.CheckPermission`: extract the username, then call
`Enforcer.Enforce(user, path, method)` and return its pair unchanged. A
panic in username extraction, or a nil enforcer, propagates as `none`. -/
def CheckPermission (ju : List Nat → JwtClaims) (a : Config) (r : Request) :
    Option (Bool × Option String) :=
  match GetUserName ju a r with
  | none => none
  | some user =>
    match a.enforcer with
    | none => none
    | some enf => some (enf user r.urlPath r.method)

/-- The echo error values the middleware produces (an `echo.HTTPError` with
a status code and a message). -/
structure EchoError where
  code : Nat
  message : String
deriving DecidableEq

/-- `echo.ErrForbidden`: status 403 with its default message. -/
def ErrForbidden : EchoError := ⟨403, "Forbidden"⟩

/-- `echo.NewHTTPError(code, message)`. -/
def NewHTTPError (code : Nat) (message : String) : EchoError :=
  ⟨code, message⟩

/-- An echo handler: returns `none` for a nil error. -/
abbrev Handler := Request → Option EchoError

/-- The skipper actually used by `MiddlewareWithConfig`: a nil skipper is
replaced by `DefaultConfig.Skipper` before the wrapped handler is built. -/
def effectiveSkipper (config : Config) : Request → Bool :=
  match config.skipper with
  | none => DefaultSkipper
  | some s => s

/-- `MiddlewareWithConfig`: skip, or check the permission and map the
outcome — error to a 500 `HTTPError`, denial to `echo.ErrForbidden`,
success to the next handler. The outer `Option` models a propagating
panic. -/
def MiddlewareWithConfig (ju : List Nat → JwtClaims) (config : Config)
    (next : Handler) (c : Request) : Option (Option EchoError) :=
  if effectiveSkipper config c then some (next c)
  else
    match CheckPermission ju config c with
    | none => none
    | some (pass, none) =>
      if pass then some (next c) else some (some ErrForbidden)
    | some (_, some err) => some (some (NewHTTPError 500 err))

/-- `Middleware(ce)`: `DefaultConfig` with the enforcer filled in. -/
def Middleware (ju : List Nat → JwtClaims) (ce : Enforcer) :
    Handler → Request → Option (Option EchoError) :=
  MiddlewareWithConfig ju { DefaultConfig with enforcer := some ce }

/-! Concrete sample values used by witnesses and counterexamples. -/

/-- A model of json unmarshalling that leaves every claim at its zero value
(what Go produces for any body that is not a JSON object). -/
def juZero : List Nat → JwtClaims := fun _ => JwtClaims.zero

/-- An enforcer granting every request with a nil error. -/
def allowEnforcer : Enforcer := fun _ _ _ => (true, none)

/-- An enforcer denying every request with a nil error. -/
def denyEnforcer : Enforcer := fun _ _ _ => (false, none)

/-- An enforcer failing with an evaluation error. -/
def errorEnforcer : Enforcer := fun _ _ _ => (false, some "request arity mismatch")

/-- An enforcer granting exactly the subject named alice. -/
def aliceEnforcer : Enforcer := fun sub _ _ => (sub == "alice", none)

/-- A sample request carrying basic-auth credentials. -/
def aliceRequest : Request :=
  { method := "GET", urlPath := "/data", authorization := "",
    basicAuthUsername := "alice", basicAuthPassword := "secret",
    basicAuthOk := true }

/-- A sample bearer-token request whose token body is not valid base64. -/
def badBase64Request : Request :=
  { method := "GET", urlPath := "/data", authorization := "header.###",
    basicAuthUsername := "", basicAuthPassword := "", basicAuthOk := false }

/-- A sample request whose Authorization header holds no dot at all. -/
def noDotRequest : Request :=
  { method := "GET", urlPath := "/data",
    authorization := "token-without-any-dot",
    basicAuthUsername := "", basicAuthPassword := "", basicAuthOk := false }

/-- A next handler succeeding with a nil error. -/
def okHandler : Handler := fun _ => none

/-- C1: for every request whose subject extraction succeeds and whose
enforcer is set, `CheckPermission` forwards exactly the three-tuple
(subject, request URL path, request HTTP method), in that order, to the
injected enforcer's `Enforce`, and returns the resulting decision/error
pair unchanged. -/
theorem checkPermission_forwards_subject_path_method
    (ju : List Nat → JwtClaims) (a : Config) (enf : Enforcer) (r : Request)
    (user : String) (he : a.enforcer = some enf)
    (hu : GetUserName ju a r = some user) :
    CheckPermission ju a r = some (enf user r.urlPath r.method) := by
  simp only [CheckPermission, hu, he]

/-- Witness for C1 at a concrete basic-auth request. -/
theorem checkPermission_forwards_subject_path_method_witness :
    CheckPermission juZero
      { skipper := none, enforcer := some aliceEnforcer, authType := BasicAuth }
      aliceRequest = some (aliceEnforcer "alice" "/data" "GET") :=
  checkPermission_forwards_subject_path_method juZero
    { skipper := none, enforcer := some aliceEnforcer, authType := BasicAuth }
    aliceEnforcer aliceRequest "alice" rfl rfl

/-- C2: for a non-skipped request the middleware maps the `CheckPermission`
outcome to exactly one of three disjoint results: an error becomes a 500
HTTP error distinct from `ErrForbidden`, a clean denial becomes the 403
`ErrForbidden`, and a clean grant invokes the next handler. -/
theorem middleware_maps_outcome_trichotomy
    (ju : List Nat → JwtClaims) (cfg : Config) (next : Handler) (r : Request)
    (hskip : effectiveSkipper cfg r = false) :
    (∀ p e, CheckPermission ju cfg r = some (p, some e) →
      MiddlewareWithConfig ju cfg next r = some (some (NewHTTPError 500 e)) ∧
        NewHTTPError 500 e ≠ ErrForbidden) ∧
    (CheckPermission ju cfg r = some (false, none) →
      MiddlewareWithConfig ju cfg next r = some (some ErrForbidden)) ∧
    (CheckPermission ju cfg r = some (true, none) →
      MiddlewareWithConfig ju cfg next r = some (next r)) := by
  refine ⟨fun p e hcp => ⟨?_, ?_⟩, fun hcp => ?_, fun hcp => ?_⟩
  · simp [MiddlewareWithConfig, hskip, hcp]
  · simp [NewHTTPError, ErrForbidden]
  · simp [MiddlewareWithConfig, hskip, hcp]
  · simp [MiddlewareWithConfig, hskip, hcp]

/-- Witness for C2 at a concrete non-skipped request with an erroring
enforcer. -/
theorem middleware_maps_outcome_trichotomy_witness :
    (∀ p e,
      CheckPermission juZero ⟨none, some errorEnforcer, BasicAuth⟩
          aliceRequest = some (p, some e) →
      MiddlewareWithConfig juZero ⟨none, some errorEnforcer, BasicAuth⟩
          okHandler aliceRequest = some (some (NewHTTPError 500 e)) ∧
        NewHTTPError 500 e ≠ ErrForbidden) ∧
    (CheckPermission juZero ⟨none, some errorEnforcer, BasicAuth⟩
          aliceRequest = some (false, none) →
      MiddlewareWithConfig juZero ⟨none, some errorEnforcer, BasicAuth⟩
          okHandler aliceRequest = some (some ErrForbidden)) ∧
    (CheckPermission juZero ⟨none, some errorEnforcer, BasicAuth⟩
          aliceRequest = some (true, none) →
      MiddlewareWithConfig juZero ⟨none, some errorEnforcer, BasicAuth⟩
          okHandler aliceRequest = some (okHandler aliceRequest)) :=
  middleware_maps_outcome_trichotomy juZero ⟨none, some errorEnforcer, BasicAuth⟩
    okHandler aliceRequest rfl

/-- C3 counterexample: a bearer token whose body fails base64 decoding is
not propagated as an error — subject extraction swallows the failure after
logging it and returns the empty subject, and the caller of
`CheckPermission` sees a clean denial with a nil error. -/
theorem getUserNameJwtAuth_swallows_decode_error_cex :
    base64RawStdDecode "###" = none ∧
    getUserNameJwtAuth juZero badBase64Request = some "" ∧
    CheckPermission juZero ⟨none, some aliceEnforcer, JwtAuth⟩
      badBase64Request = some (false, none) :=
  ⟨rfl, rfl, rfl⟩

/-- C3 amended: when AuthType is JwtAuth and the token body (second
dot-separated segment of the Authorization header) fails base64 decoding,
the failure is logged and swallowed inside subject extraction, which
returns the empty subject instead of propagating an error to the caller. -/
theorem getUserNameJwtAuth_decode_error_yields_empty
    (ju : List Nat → JwtClaims) (r : Request) (tb : String)
    (hseg : (stringsSplit r.authorization '.')[1]? = some tb)
    (hdec : base64RawStdDecode tb = none) :
    getUserNameJwtAuth ju r = some "" := by
  simp only [getUserNameJwtAuth, hseg, hdec]

/-- Witness for the amended C3 at a concrete undecodable token body. -/
theorem getUserNameJwtAuth_decode_error_yields_empty_witness :
    getUserNameJwtAuth juZero badBase64Request = some "" :=
  getUserNameJwtAuth_decode_error_yields_empty juZero badBase64Request "###"
    rfl rfl

/-- C4: `GetUserName` dispatches on the configured auth type: under
`BasicAuth` it returns the username from the HTTP basic-auth header; under
`JwtAuth`, when the second dot-separated segment of the Authorization
header base64-decodes, it returns the `sub` claim unmarshalled from the
decoded payload. -/
theorem getUserName_dispatch (ju : List Nat → JwtClaims) (a : Config)
    (r : Request) :
    (a.authType = BasicAuth →
      GetUserName ju a r = some r.basicAuthUsername) ∧
    (a.authType = JwtAuth → ∀ tb body,
      (stringsSplit r.authorization '.')[1]? = some tb →
      base64RawStdDecode tb = some body →
      GetUserName ju a r = some (ju body).sub) := by
  constructor
  · intro h
    simp [GetUserName, h, getUserNameBasicAuth]
  · intro h tb body hseg hdec
    simp [GetUserName, h, JwtAuth, BasicAuth, getUserNameJwtAuth, hseg, hdec]

/-- C5: when the configured skipper returns true, the middleware invokes
the next handler directly and the permission check never runs: any
enforcer (even a nil one) and any auth type give the same outcome. -/
theorem skipped_request_bypasses_enforcer
    (ju : List Nat → JwtClaims) (skip : Request → Bool)
    (e₁ e₂ : Option Enforcer) (t₁ t₂ : Nat) (next : Handler) (r : Request)
    (hskip : skip r = true) :
    MiddlewareWithConfig ju ⟨some skip, e₁, t₁⟩ next r = some (next r) ∧
    MiddlewareWithConfig ju ⟨some skip, e₁, t₁⟩ next r =
      MiddlewareWithConfig ju ⟨some skip, e₂, t₂⟩ next r := by
  constructor <;> simp [MiddlewareWithConfig, effectiveSkipper, hskip]

/-- Witness for C5: a skipped request proceeds even with a nil enforcer. -/
theorem skipped_request_bypasses_enforcer_witness :
    MiddlewareWithConfig juZero
        ⟨some (fun _ => true), some denyEnforcer, BasicAuth⟩
        okHandler aliceRequest = some (okHandler aliceRequest) ∧
    MiddlewareWithConfig juZero
        ⟨some (fun _ => true), some denyEnforcer, BasicAuth⟩
        okHandler aliceRequest =
      MiddlewareWithConfig juZero ⟨some (fun _ => true), none, JwtAuth⟩
        okHandler aliceRequest :=
  skipped_request_bypasses_enforcer juZero (fun _ => true)
    (some denyEnforcer) none BasicAuth JwtAuth okHandler aliceRequest rfl

/-- C6: `CheckPermission` is a pure function of the request data it reads
(auth type, Authorization header, basic-auth username, URL path, HTTP
method) and the enforcer snapshot: two invocations agreeing on those
return the same decision/error pair — no hidden state is consulted or
mutated. -/
theorem checkPermission_deterministic
    (ju : List Nat → JwtClaims) (a₁ a₂ : Config) (r₁ r₂ : Request)
    (hty : a₁.authType = a₂.authType) (henf : a₁.enforcer = a₂.enforcer)
    (hauth : r₁.authorization = r₂.authorization)
    (huser : r₁.basicAuthUsername = r₂.basicAuthUsername)
    (hpath : r₁.urlPath = r₂.urlPath) (hmeth : r₁.method = r₂.method) :
    CheckPermission ju a₁ r₁ = CheckPermission ju a₂ r₂ := by
  simp only [CheckPermission, GetUserName, getUserNameBasicAuth,
    getUserNameJwtAuth, hty, henf, hauth, huser, hpath, hmeth]

/-- Witness for C6: two requests differing only in the fields the adapter
never reads (skipper, password, basic-auth ok flag) get the same answer. -/
theorem checkPermission_deterministic_witness :
    CheckPermission juZero ⟨none, some aliceEnforcer, BasicAuth⟩
        aliceRequest =
      CheckPermission juZero
        ⟨some DefaultSkipper, some aliceEnforcer, BasicAuth⟩
        { method := "GET", urlPath := "/data", authorization := "",
          basicAuthUsername := "alice", basicAuthPassword := "other",
          basicAuthOk := false } :=
  checkPermission_deterministic juZero ⟨none, some aliceEnforcer, BasicAuth⟩
    ⟨some DefaultSkipper, some aliceEnforcer, BasicAuth⟩ aliceRequest
    { method := "GET", urlPath := "/data", authorization := "",
      basicAuthUsername := "alice", basicAuthPassword := "other",
      basicAuthOk := false } rfl rfl rfl rfl rfl rfl

/-- C7 (the code refutes the claim): under JwtAuth an Authorization header
with no dot splits into a single segment, so the unconditional index
`splitToken[1]` is out of bounds and subject extraction panics (modelled by
`none`) instead of returning a string; the panic propagates through
`GetUserName`, `CheckPermission` and the middleware. -/
theorem getUserNameJwtAuth_no_dot_panics :
    (stringsSplit "token-without-any-dot" '.').length = 1 ∧
    (stringsSplit "token-without-any-dot" '.')[1]? = none ∧
    getUserNameJwtAuth juZero noDotRequest = none ∧
    CheckPermission juZero ⟨none, some allowEnforcer, JwtAuth⟩
      noDotRequest = none ∧
    MiddlewareWithConfig juZero ⟨none, some allowEnforcer, JwtAuth⟩
      okHandler noDotRequest = none :=
  ⟨rfl, rfl, rfl, rfl, rfl⟩

/-- C8: a request without usable credentials (empty basic-auth username
under BasicAuth, undecodable or sub-less token under JwtAuth, or an auth
type outside the two constants) is not rejected by the adapter: the empty
subject is forwarded to the enforcer, whose policy alone decides. -/
theorem missing_credentials_forward_empty_subject
    (ju : List Nat → JwtClaims) (a : Config) (enf : Enforcer) (r : Request)
    (henf : a.enforcer = some enf)
    (hanon :
      (a.authType = BasicAuth ∧ r.basicAuthUsername = "") ∨
      (a.authType = JwtAuth ∧ ∃ tb,
        (stringsSplit r.authorization '.')[1]? = some tb ∧
        (base64RawStdDecode tb = none ∨
          ∃ body, base64RawStdDecode tb = some body ∧ (ju body).sub = "")) ∨
      (a.authType ≠ BasicAuth ∧ a.authType ≠ JwtAuth)) :
    CheckPermission ju a r = some (enf "" r.urlPath r.method) := by
  rcases hanon with ⟨hty, huser⟩ | ⟨hty, tb, hseg, hdec | ⟨body, hdec, hsub⟩⟩ |
    ⟨h0, h1⟩
  · simp [CheckPermission, GetUserName, getUserNameBasicAuth, hty, huser,
      henf]
  · simp [CheckPermission, GetUserName, getUserNameJwtAuth, hty, JwtAuth,
      BasicAuth, hseg, hdec, henf]
  · simp [CheckPermission, GetUserName, getUserNameJwtAuth, hty, JwtAuth,
      BasicAuth, hseg, hdec, hsub, henf]
  · simp [CheckPermission, GetUserName, h0, h1, henf]

/-- Witness for C8: an undecodable bearer token is forwarded as the empty
subject and judged by the enforcer's policy for `""`. -/
theorem missing_credentials_forward_empty_subject_witness :
    CheckPermission juZero ⟨none, some aliceEnforcer, JwtAuth⟩
      badBase64Request = some (aliceEnforcer "" "/data" "GET") :=
  missing_credentials_forward_empty_subject juZero
    ⟨none, some aliceEnforcer, JwtAuth⟩ aliceEnforcer badBase64Request rfl
    (Or.inr (Or.inl ⟨rfl, "###", rfl, Or.inl rfl⟩))

/-- C9: `Middleware ce` is the middleware of the config with the default
skipper, the enforcer `ce` and `BasicAuth`; a nil skipper behaves exactly
as `DefaultConfig`'s skipper; and the default skipper skips nothing. -/
theorem middleware_equals_default_config (ju : List Nat → JwtClaims) :
    (∀ ce : Enforcer, Middleware ju ce =
      MiddlewareWithConfig ju
        { skipper := some DefaultSkipper, enforcer := some ce,
          authType := BasicAuth }) ∧
    (∀ cfg : Config, cfg.skipper = none →
      MiddlewareWithConfig ju cfg =
        MiddlewareWithConfig ju
          { cfg with skipper := DefaultConfig.skipper }) ∧
    (∀ r : Request, DefaultSkipper r = false) := by
  refine ⟨fun ce => rfl, fun cfg h => ?_, fun r => rfl⟩
  cases cfg with
  | mk sk enf ty =>
    cases sk with
    | none => rfl
    | some s => exact absurd h (by simp)

end EchoCasbin
